import Mathlib

/-!
Verification of the report renderer in
`report_templates/static/js/report.js` of the NGG repository.

The file is a shallow embedding of the script: the DOM surface the script
touches is a record (`Dom`), every assignment to `textContent`,
`innerHTML`, `style.display`, appended table rows, appended recommendation
items, and every canvas `fill()` call is an explicit field update, and the
three functions `renderReport`, `toggleEvidence` and `drawSimpleChart` are
Lean functions on that record.  JavaScript values that may be `undefined`
are `Option`s; a `TypeError` raised by a property access on `undefined`
is the `.thrown` constructor of `RenderResult`, which carries the DOM as
it stood when the exception escaped.  Angles are stored as rational
multiples of π, so the arc `2π · passFraction` of the source is the
coefficient `2 · passFraction`.
-/

/-- JavaScript value shape used for the `evidence` field of a finding
(arbitrary JSON data, as the spec's data model allows). -/
inductive Json where
  | null : Json
  | bool (b : Bool) : Json
  | num (n : Int) : Json
  | str (s : String) : Json
  | arr (xs : List Json) : Json
  | obj (kvs : List (String × Json)) : Json
deriving Repr

/-- Hexadecimal digit used by the `\u00XX` escapes of `JSON.stringify`. -/
def hexDigit (n : Nat) : Char :=
  if n < 10 then Char.ofNat (48 + n) else Char.ofNat (87 + n)

/-- Escaping of a single character inside a JSON string literal, as
`JSON.stringify` performs it. -/
def escapeJsonChar (c : Char) : String :=
  if c = '"' then "\\\""
  else if c = '\\' then "\\\\"
  else if c = '\n' then "\\n"
  else if c = '\r' then "\\r"
  else if c = '\t' then "\\t"
  else if c = Char.ofNat 8 then "\\b"
  else if c = Char.ofNat 12 then "\\f"
  else if c.toNat < 32 then
    "\\u00" ++ String.mk [hexDigit (c.toNat / 16), hexDigit (c.toNat % 16)]
  else String.mk [c]

/-- A JSON string literal: quotes around the escaped characters. -/
def quoteJson (s : String) : String :=
  "\"" ++ String.join (s.toList.map escapeJsonChar) ++ "\""

/-- Indentation emitted by `JSON.stringify(v, null, 2)` at nesting depth
`d`: `2 * d` spaces. -/
def jsonIndent (d : Nat) : String :=
  String.mk (List.replicate (2 * d) ' ')

mutual

/-- `JSON.stringify(v, null, 2)` at nesting depth `d`: the pretty printer
the table builder applies to `finding.evidence` (source line 45). -/
def Json.stringifyAux : Nat → Json → String
  | _, .null => "null"
  | _, .bool true => "true"
  | _, .bool false => "false"
  | _, .num n => toString n
  | _, .str s => quoteJson s
  | _, .arr [] => "[]"
  | d, .arr (x :: xs) =>
      "[\n" ++ Json.stringifyItems (d + 1) (x :: xs) ++ "\n" ++ jsonIndent d ++ "]"
  | _, .obj [] => "\x7b\x7d"
  | d, .obj (kv :: kvs) =>
      "\x7b\n" ++ Json.stringifyFields (d + 1) (kv :: kvs) ++ "\n" ++ jsonIndent d ++ "\x7d"

/-- Array elements of `JSON.stringify`, one per line, comma separated. -/
def Json.stringifyItems : Nat → List Json → String
  | _, [] => ""
  | d, [x] => jsonIndent d ++ Json.stringifyAux d x
  | d, x :: y :: xs =>
      jsonIndent d ++ Json.stringifyAux d x ++ ",\n" ++ Json.stringifyItems d (y :: xs)

/-- Object members of `JSON.stringify`, one per line, comma separated. -/
def Json.stringifyFields : Nat → List (String × Json) → String
  | _, [] => ""
  | d, [(k, v)] => jsonIndent d ++ quoteJson k ++ ": " ++ Json.stringifyAux d v
  | d, (k, v) :: kv :: kvs =>
      jsonIndent d ++ quoteJson k ++ ": " ++ Json.stringifyAux d v ++ ",\n" ++
        Json.stringifyFields d (kv :: kvs)

end

/-- `JSON.stringify(v, null, 2)` as called on evidence blocks. -/
def Json.stringify2 (v : Json) : String :=
  Json.stringifyAux 0 v

/-- One finding record of the input payload (data model of the spec,
field types as the JSON contract specifies). -/
structure Finding where
  id : String
  type : String
  control : String
  status : String
  evidence : Json
deriving Repr

/-- The `metadata` object of the input payload. -/
structure Metadata where
  framework : String
  files_scanned : Nat
  target_path : String
  integrity_hash : String
deriving Repr, DecidableEq

/-- The `stats` object of the input payload. -/
structure Stats where
  pass : Nat
  fail : Nat
deriving Repr, DecidableEq

/-- A fully populated report payload (every field present). -/
structure ScanReport where
  metadata : Metadata
  stats : Stats
  findings : List Finding
deriving Repr

/-- A possibly ill-formed truthy payload: any of the three top-level
fields may be `undefined` (`none`), which makes the corresponding
property access in `renderReport` raise a `TypeError`. -/
structure RawReport where
  metadata : Option Metadata
  stats : Option Stats
  findings : Option (List Finding)
deriving Repr

/-- View of a well-formed report as a raw payload. -/
def ScanReport.toRaw (r : ScanReport) : RawReport :=
  { metadata := some r.metadata, stats := some r.stats,
    findings := some r.findings }

/-- JavaScript `s || dflt` for a string written to `textContent`:
the empty string is falsy, every other string is itself. -/
def strOr (s : String) (dflt : String) : String :=
  if s = "" then dflt else s

/-- JavaScript `n || dflt` for a nonnegative number written to
`textContent`: `0` is falsy and yields the placeholder, any other
number is stringified. -/
def natOr (n : Nat) (dflt : String) : String :=
  if n = 0 then dflt else toString n

/-- The `RECOMMENDATIONS_MAP` constant of the script (source lines 2-6):
control id to remediation text, currently a single entry. -/
def RECOMMENDATIONS_MAP : String → Option String := fun id =>
  if id = "CC1.5" then
    some "Your latest commit is unsigned. To fix this: 1. gpg --full-generate-key 2. git config --global commit.gpgsign true 3. git commit --amend --no-edit -S"
  else none

/-- JavaScript `toLowerCase()` as applied to the overall status string
(ASCII content only). -/
def jsToLowerCase (s : String) : String :=
  String.mk (s.toList.map Char.toLower)

/-- The collapsible evidence `div` rendered next to a FAIL finding's
toggle button: its `id` attribute, its inline `style.display`, and the
pretty-printed evidence inside its `pre` element. -/
structure EvidenceBlock where
  elemId : String
  display : String
  content : String
deriving Repr, DecidableEq

/-- The actions cell of a table row: for a FAIL finding a toggle button
(labelled by its `textContent`) immediately followed by its evidence
block; otherwise the `N-slash-A` span. -/
inductive ActionCell where
  | toggle (buttonLabel : String) (details : EvidenceBlock) : ActionCell
  | na : ActionCell
deriving Repr, DecidableEq

/-- One `tr` appended to `findings-tbody`: the five cells of the row
template (source lines 36-51). -/
structure Row where
  id : String
  type : String
  control : String
  statusClass : String
  statusText : String
  actions : ActionCell
deriving Repr, DecidableEq

/-- The row the table builder creates for one finding (source
lines 30-52): status class keyed on `status === 'PASS'`, actions cell
keyed on `status === 'FAIL'`, evidence block id `details-<id>`, initially
without an inline display (hidden by the stylesheet). -/
def buildRow (f : Finding) : Row :=
  { id := f.id
    type := f.type
    control := f.control
    statusClass := if f.status = "PASS" then "status-pass" else "status-fail"
    statusText := f.status
    actions :=
      if f.status = "FAIL" then
        .toggle "Show Evidence"
          { elemId := "details-" ++ f.id
            display := ""
            content := Json.stringify2 f.evidence }
      else .na }

/-- One `li` appended to `recommendations-list`: the markup is
`<li><strong>id:</strong> text</li>`, recorded as its two variable
parts. -/
structure RecItem where
  controlId : String
  text : String
deriving Repr, DecidableEq

/-- The fallback recommendation text of source line 81. -/
def fallbackRecommendation (controlId : String) : String :=
  "No specific recommendation found for control " ++ controlId ++
    ". Please review the control objective and evidence."

/-- The recommendation item generated for one failed finding (source
lines 70-87): catalog text when the id is mapped, the fallback text
otherwise. -/
def recItemFor (f : Finding) : RecItem :=
  match RECOMMENDATIONS_MAP f.id with
  | some t => { controlId := f.id, text := t }
  | none => { controlId := f.id, text := fallbackRecommendation f.id }

/-- The drawing surface `resultsChart` (a fixed-size canvas). -/
structure Canvas where
  width : ℚ
  height : ℚ
deriving Repr, DecidableEq

/-- One filled wedge painted by `drawSimpleChart`: a closed path from
the center through an arc back to the center, filled with a color.
`startAngle` and `endAngle` are the arc bounds as multiples of π. -/
structure Sector where
  cx : ℚ
  cy : ℚ
  radius : ℚ
  startAngle : ℚ
  endAngle : ℚ
  fillStyle : String
deriving Repr, DecidableEq

/-- `drawSimpleChart(passCount, failCount)` (source lines 110-139): the
list of wedges filled onto the canvas.  Absent canvas or zero total paint
nothing; otherwise the pass wedge runs from angle `0` to
`2π · passCount/total` and the fail wedge continues to
`2π · (passCount + failCount)/total`. -/
def drawSimpleChart (canvas : Option Canvas) (passCount failCount : Nat) : List Sector :=
  match canvas with
  | none => []
  | some c =>
    let total := passCount + failCount
    if total = 0 then []
    else
      let centerX := c.width / 2
      let centerY := c.height / 2
      let radius := min centerX centerY - 10
      let passFraction : ℚ := (passCount : ℚ) / (total : ℚ)
      let failFraction : ℚ := (failCount : ℚ) / (total : ℚ)
      [ { cx := centerX, cy := centerY, radius := radius
          startAngle := 0, endAngle := 2 * passFraction
          fillStyle := "#073b0f" },
        { cx := centerX, cy := centerY, radius := radius
          startAngle := 2 * passFraction
          endAngle := 2 * (passFraction + failFraction)
          fillStyle := "#8c1515" } ]

/-- The DOM surface the script reads and writes: the text of each summary
field, the rows of `findings-tbody`, the canvas and the wedges painted on
it (a `fill()` adds a wedge, nothing ever erases one), and the
recommendations placeholder with its list. -/
structure Dom where
  frameworkValue : String
  passCount : String
  failCount : String
  totalCount : String
  statusValue : String
  filesCount : String
  pathValue : String
  integrityHash : String
  tbodyRows : List Row
  canvas : Option Canvas
  chartSectors : List Sector
  recDisplay : String
  recListItems : List RecItem
deriving Repr, DecidableEq

/-- Outcome of one `renderReport` call: normal return or an escaped
exception; both carry the DOM as the call left it, and the console
messages logged. -/
inductive RenderResult where
  | ok (dom : Dom) (logs : List String) : RenderResult
  | thrown (dom : Dom) (logs : List String) (error : String) : RenderResult
deriving Repr, DecidableEq

/-- The DOM after the call, whether it returned or threw. -/
def RenderResult.domAfter : RenderResult → Dom
  | .ok d _ => d
  | .thrown d _ _ => d

/-- Whether the call escaped with an exception. -/
def RenderResult.didThrow : RenderResult → Bool
  | .ok _ _ => false
  | .thrown _ _ _ => true

/-- `renderReport(data)` (source lines 8-96) on a possibly absent,
possibly ill-formed payload.  Statement order follows the source: the
falsy guard, the seven summary fields, the findings table (appended, the
body is never cleared), the chart, then the recommendations section.
A property access on an `undefined` field throws a `TypeError` at the
corresponding point, leaving every earlier write in place. -/
def renderReportRaw (data : Option RawReport) (dom : Dom) : RenderResult :=
  match data with
  | none => .ok dom ["No data provided to renderReport."]
  | some d =>
    match d.metadata with
    | none => .thrown dom [] "TypeError"
    | some md =>
      let dom := { dom with frameworkValue := strOr md.framework "Loading..." }
      match d.stats with
      | none => .thrown dom [] "TypeError"
      | some st =>
        let dom := { dom with
          passCount := natOr st.pass "0"
          failCount := natOr st.fail "0"
          totalCount := natOr (st.pass + st.fail) "0" }
        let overallStatus := if st.fail > 0 then "FAIL" else "PASS"
        let dom := { dom with
          statusValue := "<span class=\"status-" ++ jsToLowerCase overallStatus ++
            "\">" ++ overallStatus ++ "</span>" }
        let dom := { dom with
          filesCount := natOr md.files_scanned "0"
          pathValue := strOr md.target_path "Unknown"
          integrityHash := strOr md.integrity_hash "N/A" }
        match d.findings with
        | none => .thrown dom [] "TypeError"
        | some findings =>
          let dom := { dom with tbodyRows := dom.tbodyRows ++ findings.map buildRow }
          let dom := { dom with
            chartSectors := dom.chartSectors ++ drawSimpleChart dom.canvas st.pass st.fail }
          let failedFindings := findings.filter (fun f => f.status == "FAIL")
          if failedFindings.length > 0 then
            .ok { dom with
              recListItems := failedFindings.map recItemFor
              recDisplay := "block" } []
          else
            .ok { dom with recDisplay := "none" } []

/-- `renderReport` on a well-formed payload. -/
def renderReport (r : ScanReport) (dom : Dom) : RenderResult :=
  renderReportRaw (some r.toRaw) dom

/-- The state `toggleEvidence` reads and writes for one evidence block:
the block's inline `style.display` and the toggle button's label. -/
structure EvState where
  display : String
  label : String
deriving Repr, DecidableEq

/-- `toggleEvidence(button)` (source lines 98-108): an unset or `none`
display becomes `block` with label `Hide Evidence`, anything else becomes
`none` with label `Show Evidence`. -/
def toggleEvidence (s : EvState) : EvState :=
  if s.display = "none" ∨ s.display = "" then
    { display := "block", label := "Hide Evidence" }
  else
    { display := "none", label := "Show Evidence" }

/-- The three functions the script defines, as abstract values for the
`window` bindings. -/
inductive JsFun where
  | renderReportFn : JsFun
  | toggleEvidenceFn : JsFun
  | drawSimpleChartFn : JsFun
deriving Repr, DecidableEq

/-- The global bindings installed on `window` (source lines 141-143), in
order: name on `window` paired with the function bound to it. -/
def windowBindings : List (String × JsFun) :=
  [("renderReport", .renderReportFn),
   ("toggleEvidence", .toggleEvidenceFn),
   ("drawSimpleChart", .drawSimpleChartFn)]

/-- A finding's evidence block display value counts as hidden when it is
the explicit `none` or the unset empty string (the two collapsed display
values the toggle recognizes, per source line 101). -/
def isHiddenDisplay (s : String) : Prop :=
  s = "none" ∨ s = ""

/-- The DOM produced by a `renderReport` call on a well-formed payload,
written out field by field; `renderReport_ok` proves `renderReport`
returns exactly this record. -/
def renderedDom (r : ScanReport) (dom : Dom) : Dom :=
  let failedFindings := r.findings.filter (fun f => f.status == "FAIL")
  let overallStatus := if r.stats.fail > 0 then "FAIL" else "PASS"
  { frameworkValue := strOr r.metadata.framework "Loading..."
    passCount := natOr r.stats.pass "0"
    failCount := natOr r.stats.fail "0"
    totalCount := natOr (r.stats.pass + r.stats.fail) "0"
    statusValue := "<span class=\"status-" ++ jsToLowerCase overallStatus ++
      "\">" ++ overallStatus ++ "</span>"
    filesCount := natOr r.metadata.files_scanned "0"
    pathValue := strOr r.metadata.target_path "Unknown"
    integrityHash := strOr r.metadata.integrity_hash "N/A"
    tbodyRows := dom.tbodyRows ++ r.findings.map buildRow
    canvas := dom.canvas
    chartSectors := dom.chartSectors ++ drawSimpleChart dom.canvas r.stats.pass r.stats.fail
    recDisplay := if failedFindings.length > 0 then "block" else "none"
    recListItems :=
      if failedFindings.length > 0 then failedFindings.map recItemFor
      else dom.recListItems }

/-- An empty host page DOM with a 200 by 200 canvas, before any render. -/
def dom0 : Dom :=
  { frameworkValue := "", passCount := "", failCount := "", totalCount := ""
    statusValue := "", filesCount := "", pathValue := "", integrityHash := ""
    tbodyRows := [], canvas := some { width := 200, height := 200 }
    chartSectors := [], recDisplay := "", recListItems := [] }

/-- The FAIL finding of the spec's worked scenario. -/
def sampleFailFinding : Finding :=
  { id := "CC1.5", type := "process", control := "Commit signing"
    status := "FAIL", evidence := .obj [("file", .str "a.go")] }

/-- The PASS finding of the spec's worked scenario. -/
def samplePassFinding : Finding :=
  { id := "CC6.1", type := "code", control := "Auth required"
    status := "PASS", evidence := .null }

/-- The metadata of the spec's worked scenario. -/
def sampleMetadata : Metadata :=
  { framework := "SOC2", files_scanned := 12, target_path := "/app"
    integrity_hash := "abc123" }

/-- A one-finding report with a single FAIL finding. -/
def sampleReport1 : ScanReport :=
  { metadata := sampleMetadata, stats := { pass := 0, fail := 1 }
    findings := [sampleFailFinding] }

/-- A one-finding report with a single PASS finding and no failures. -/
def samplePassReport : ScanReport :=
  { metadata := sampleMetadata, stats := { pass := 1, fail := 0 }
    findings := [samplePassFinding] }

/-- A 200 by 100 canvas used to exercise the chart geometry. -/
def chartCanvas0 : Canvas :=
  { width := 200, height := 100 }

/-- A truthy payload carrying `metadata` but no `stats` field. -/
def rawMissingStats : RawReport :=
  { metadata := some sampleMetadata, stats := none, findings := none }

/-- A truthy payload carrying no `metadata` field. -/
def rawMissingMetadata : RawReport :=
  { metadata := none, stats := none, findings := none }

theorem renderReport_ok (r : ScanReport) (dom : Dom) :
    renderReport r dom = .ok (renderedDom r dom) [] := by
  obtain ⟨md, st, fs⟩ := r
  simp only [renderReport, renderReportRaw, ScanReport.toRaw, renderedDom]
  split
  · next h => simp [h]
  · next h => simp [h]

/-- C4: the overall-status badge reads FAIL if and only if
`stats.fail > 0` and PASS otherwise; the two outcomes are exhaustive and
mutually exclusive, and the badge markup uses the lowercase status string
as its style selector. -/
theorem overall_status_badge (r : ScanReport) (dom : Dom) :
    (((renderReport r dom).domAfter).statusValue =
        "<span class=\"status-fail\">FAIL</span>" ↔ r.stats.fail > 0) ∧
    (((renderReport r dom).domAfter).statusValue =
        "<span class=\"status-pass\">PASS</span>" ↔ ¬ r.stats.fail > 0) := by
  rw [renderReport_ok]
  by_cases h : r.stats.fail > 0 <;>
    simp [renderedDom, RenderResult.domAfter, h] <;> decide

/-- C5: for every valid report the rendered total-count field is the
decimal string of `stats.pass + stats.fail`; in particular the
`pass = fail = 0` edge case renders as the string `0`. -/
theorem total_count_is_sum (r : ScanReport) (dom : Dom) :
    ((renderReport r dom).domAfter).totalCount =
      toString (r.stats.pass + r.stats.fail) := by
  rw [renderReport_ok]
  rcases Nat.eq_zero_or_pos (r.stats.pass + r.stats.fail) with h | h
  · simp only [renderedDom, RenderResult.domAfter, natOr, h, if_pos]
    decide
  · simp [renderedDom, RenderResult.domAfter, natOr, h.ne']

/-- C6: a null or undefined payload makes `renderReport` log a diagnostic
and return normally with the DOM untouched: no partial render, no
exception. -/
theorem renderReport_null_fail_soft (dom : Dom) :
    renderReportRaw none dom = .ok dom ["No data provided to renderReport."] :=
  rfl

/-- C10: the fail-soft guard covers only a falsy payload.  A truthy
payload with `metadata` but without `stats` throws a `TypeError` after
the framework field has already been written (partial mutation: `dom0`
did not hold `SOC2` before the call); a truthy payload without
`metadata` throws before any DOM write. -/
theorem renderReport_throws_on_missing_fields :
    (renderReportRaw (some rawMissingStats) dom0).didThrow = true ∧
    renderReportRaw (some rawMissingStats) dom0 =
      .thrown { dom0 with frameworkValue := "SOC2" } [] "TypeError" ∧
    dom0.frameworkValue ≠ "SOC2" ∧
    renderReportRaw (some rawMissingMetadata) dom0 =
      .thrown dom0 [] "TypeError" := by
  refine ⟨rfl, by decide, by decide, rfl⟩

/-- C3 counterexample: no global named `drawChart` is installed on
`window`; the binding list of source lines 141-143 does not contain that
name. -/
theorem no_global_drawChart :
    ¬ "drawChart" ∈ windowBindings.map Prod.fst := by
  decide

/-- C3 amended: the module installs exactly the globals `renderReport`,
`toggleEvidence` and `drawSimpleChart`; the chart-drawing function is
bound to the name `drawSimpleChart`, and no `drawChart` global exists. -/
theorem window_globals_exact :
    windowBindings.map Prod.fst =
      ["renderReport", "toggleEvidence", "drawSimpleChart"] ∧
    ("drawSimpleChart", JsFun.drawSimpleChartFn) ∈ windowBindings ∧
    ¬ "drawChart" ∈ windowBindings.map Prod.fst := by
  decide

/-- C2: after a render, the recommendations panel is hidden exactly when
the report has no FAIL findings; otherwise it is shown and the list holds
one item per FAIL finding in source order, each carrying the catalog text
when the id is mapped and the literal fallback sentence otherwise. -/
theorem recommendations_panel_spec (r : ScanReport) (dom : Dom) :
    (((renderReport r dom).domAfter).recDisplay = "none" ↔
      r.findings.filter (fun f => f.status == "FAIL") = []) ∧
    (r.findings.filter (fun f => f.status == "FAIL") ≠ [] →
      ((renderReport r dom).domAfter).recDisplay = "block" ∧
      ((renderReport r dom).domAfter).recListItems =
        (r.findings.filter (fun f => f.status == "FAIL")).map (fun f =>
          match RECOMMENDATIONS_MAP f.id with
          | some t => { controlId := f.id, text := t }
          | none =>
            { controlId := f.id
              text := "No specific recommendation found for control " ++
                f.id ++ ". Please review the control objective and evidence." })) := by
  rw [renderReport_ok]
  by_cases h : (r.findings.filter (fun f => f.status == "FAIL")).length > 0
  · have hne : r.findings.filter (fun f => f.status == "FAIL") ≠ [] :=
      List.length_pos.mp h
    constructor
    · simp [renderedDom, RenderResult.domAfter, h, hne]
    · intro _
      refine ⟨by simp [renderedDom, RenderResult.domAfter, h], ?_⟩
      simp only [renderedDom, RenderResult.domAfter, if_pos h]
      rfl
  · have he : r.findings.filter (fun f => f.status == "FAIL") = [] := by
      simpa using h
    constructor
    · simp [renderedDom, RenderResult.domAfter, h, he]
    · intro hne
      exact absurd he hne

/-- C2 witness: a report with one FAIL finding on control CC1.5 shows
the panel and renders exactly the mapped catalog item. -/
theorem recommendations_panel_spec_witness :
    sampleReport1.findings.filter (fun f => f.status == "FAIL") ≠ [] ∧
    ((renderReport sampleReport1 dom0).domAfter).recDisplay = "block" ∧
    ((renderReport sampleReport1 dom0).domAfter).recListItems =
      [{ controlId := "CC1.5"
         text := "Your latest commit is unsigned. To fix this: 1. gpg --full-generate-key 2. git config --global commit.gpgsign true 3. git commit --amend --no-edit -S" }] := by
  have hne : sampleReport1.findings.filter (fun f => f.status == "FAIL") ≠ [] := by
    simp [sampleReport1, sampleFailFinding]
  have h := (recommendations_panel_spec sampleReport1 dom0).2 hne
  refine ⟨hne, h.1, ?_⟩
  rw [h.2]
  rfl

/-- C7: the chart drawer paints nothing when the canvas is absent or the
total count is zero; otherwise it paints exactly two wedges starting at
angle 0, spanning `2π·pass/total` and `2π·fail/total` (angles recorded as
multiples of π), contiguous and summing to a full revolution, with radius
`min(half-width, half-height) - 10`. -/
theorem drawSimpleChart_spec (c : Canvas) (p f : Nat) :
    drawSimpleChart none p f = [] ∧
    (p + f = 0 → drawSimpleChart (some c) p f = []) ∧
    (p + f > 0 →
      ∃ s1 s2, drawSimpleChart (some c) p f = [s1, s2] ∧
        s1.startAngle = 0 ∧
        s1.endAngle - s1.startAngle = 2 * ((p : ℚ) / ((p + f : Nat) : ℚ)) ∧
        s2.startAngle = s1.endAngle ∧
        s2.endAngle - s2.startAngle = 2 * ((f : ℚ) / ((p + f : Nat) : ℚ)) ∧
        (s1.endAngle - s1.startAngle) + (s2.endAngle - s2.startAngle) = 2 ∧
        s2.endAngle = 2 ∧
        s1.radius = min (c.width / 2) (c.height / 2) - 10 ∧
        s2.radius = s1.radius) := by
  refine ⟨rfl, fun h => by simp [drawSimpleChart, h], fun h => ?_⟩
  have h0 : ¬ (p + f = 0) := Nat.pos_iff_ne_zero.mp h
  have ht : ((p + f : Nat) : ℚ) ≠ 0 := Nat.cast_ne_zero.mpr h0
  have hsum : (p : ℚ) / ((p + f : Nat) : ℚ) + (f : ℚ) / ((p + f : Nat) : ℚ) = 1 := by
    rw [div_add_div_same, div_eq_one_iff_eq ht]
    push_cast
    ring
  have heq : drawSimpleChart (some c) p f =
      [ { cx := c.width / 2, cy := c.height / 2
          radius := min (c.width / 2) (c.height / 2) - 10
          startAngle := 0
          endAngle := 2 * ((p : ℚ) / ((p + f : Nat) : ℚ))
          fillStyle := "#073b0f" },
        { cx := c.width / 2, cy := c.height / 2
          radius := min (c.width / 2) (c.height / 2) - 10
          startAngle := 2 * ((p : ℚ) / ((p + f : Nat) : ℚ))
          endAngle := 2 * ((p : ℚ) / ((p + f : Nat) : ℚ) +
            (f : ℚ) / ((p + f : Nat) : ℚ))
          fillStyle := "#8c1515" } ] := by
    simp [drawSimpleChart, h0]
  refine ⟨_, _, heq, rfl, by ring, rfl, by ring, ?_, ?_, rfl, rfl⟩
  · show (2 * ((p : ℚ) / ((p + f : Nat) : ℚ)) - 0) +
      (2 * ((p : ℚ) / ((p + f : Nat) : ℚ) + (f : ℚ) / ((p + f : Nat) : ℚ)) -
        2 * ((p : ℚ) / ((p + f : Nat) : ℚ))) = 2
    rw [hsum]
    ring
  · show 2 * ((p : ℚ) / ((p + f : Nat) : ℚ) + (f : ℚ) / ((p + f : Nat) : ℚ)) = 2
    rw [hsum]
    ring

/-- C7 witness: with a present 200 by 100 canvas and counts 3 and 1 the
two wedges exist, spanning 3/4 and 1/4 of a full revolution. -/
theorem drawSimpleChart_spec_witness :
    3 + 1 > 0 ∧
    (∃ s1 s2, drawSimpleChart (some chartCanvas0) 3 1 = [s1, s2] ∧
      s1.startAngle = 0 ∧
      s1.endAngle - s1.startAngle = 2 * ((3 : ℚ) / ((3 + 1 : Nat) : ℚ)) ∧
      s2.startAngle = s1.endAngle ∧
      s2.endAngle - s2.startAngle = 2 * ((1 : ℚ) / ((3 + 1 : Nat) : ℚ)) ∧
      (s1.endAngle - s1.startAngle) + (s2.endAngle - s2.startAngle) = 2 ∧
      s2.endAngle = 2 ∧
      s1.radius = min (chartCanvas0.width / 2) (chartCanvas0.height / 2) - 10 ∧
      s2.radius = s1.radius) :=
  ⟨by decide, by
    have h := (drawSimpleChart_spec chartCanvas0 3 1).2.2 (by decide)
    exact_mod_cast h⟩

/-- C9: for findings whose statuses all lie in PASS/FAIL the table
builder emits one row per finding in input order; a FAIL finding's
actions cell is a toggle labelled Show Evidence immediately followed by a
hidden evidence block with element id `details-<id>` holding the
pretty-printed evidence; a PASS finding's actions cell is the neutral
N/A marker and holds no evidence block. -/
theorem findings_table_rows_spec (findings : List Finding)
    (_hst : ∀ f ∈ findings, f.status = "PASS" ∨ f.status = "FAIL") :
    (findings.map buildRow).length = findings.length ∧
    ∀ i : Fin findings.length,
      (findings.map buildRow).get ⟨i.1, by simp only [List.length_map]; exact i.2⟩ =
        buildRow (findings.get i) ∧
      ((findings.get i).status = "FAIL" →
        ∃ eb : EvidenceBlock,
          (buildRow (findings.get i)).actions = .toggle "Show Evidence" eb ∧
          eb.elemId = "details-" ++ (findings.get i).id ∧
          isHiddenDisplay eb.display ∧
          eb.content = Json.stringify2 (findings.get i).evidence) ∧
      ((findings.get i).status = "PASS" →
        (buildRow (findings.get i)).actions = .na) := by
  refine ⟨List.length_map _ _, fun i => ⟨?_, fun hf => ?_, fun hp => ?_⟩⟩
  · simp [List.get_eq_getElem, List.getElem_map]
  · simp only [List.get_eq_getElem] at hf
    exact ⟨{ elemId := "details-" ++ (findings.get i).id, display := ""
             content := Json.stringify2 (findings.get i).evidence },
      by simp [buildRow, hf], rfl, Or.inr rfl, rfl⟩
  · have hne : (findings.get i).status ≠ "FAIL" := by
      rw [hp]; decide
    simp only [List.get_eq_getElem] at hne ⊢
    simp [buildRow, hne]

/-- C9 witness: the two-finding scenario of the spec yields two rows, in
order, with a toggle-plus-evidence cell for the FAIL finding. -/
theorem findings_table_rows_spec_witness :
    (∀ f ∈ [sampleFailFinding, samplePassFinding],
      f.status = "PASS" ∨ f.status = "FAIL") ∧
    ([sampleFailFinding, samplePassFinding].map buildRow).length = 2 := by
  have hst : ∀ f ∈ [sampleFailFinding, samplePassFinding],
      f.status = "PASS" ∨ f.status = "FAIL" := by decide
  have h := findings_table_rows_spec [sampleFailFinding, samplePassFinding] hst
  refine ⟨hst, ?_⟩
  rw [h.1]
  rfl

theorem toggle_collapsed_step (s : EvState)
    (h : s.display = "none" ∨ s.display = "") :
    toggleEvidence s = { display := "block", label := "Hide Evidence" } := by
  unfold toggleEvidence
  rw [if_pos h]

theorem toggle_expanded_step :
    toggleEvidence { display := "block", label := "Hide Evidence" } =
      { display := "none", label := "Show Evidence" } := by
  decide

theorem toggle_iterate_even (k : Nat) (s : EvState)
    (hd : s.display = "none" ∨ s.display = "")
    (hl : s.label = "Show Evidence") :
    ((toggleEvidence^[2 * k] s).display = "none" ∨
      (toggleEvidence^[2 * k] s).display = "") ∧
    (toggleEvidence^[2 * k] s).label = "Show Evidence" := by
  induction k generalizing s with
  | zero => simpa using ⟨hd, hl⟩
  | succ n ih =>
    have h2 : 2 * (n + 1) = 2 * n + 2 := by ring
    rw [h2, Function.iterate_add_apply]
    have hs2 : toggleEvidence^[2] s =
        { display := "none", label := "Show Evidence" } := by
      calc toggleEvidence^[2] s = toggleEvidence (toggleEvidence s) := rfl
        _ = toggleEvidence { display := "block", label := "Hide Evidence" } := by
              rw [toggle_collapsed_step s hd]
        _ = { display := "none", label := "Show Evidence" } := toggle_expanded_step
    rw [hs2]
    exact ih _ (Or.inl rfl) rfl

/-- C8: starting from a collapsed evidence block (display unset or
explicitly `none`) whose trigger reads Show Evidence, an odd number of
toggles leaves the block visible with label Hide Evidence and an even
number leaves it hidden with label Show Evidence; the toggle has exactly
these two states, so a pair of toggles is an identity on visibility. -/
theorem toggleEvidence_parity (n : Nat) (s : EvState)
    (hd : s.display = "none" ∨ s.display = "")
    (hl : s.label = "Show Evidence") :
    (Odd n → toggleEvidence^[n] s =
      { display := "block", label := "Hide Evidence" }) ∧
    (Even n →
      ((toggleEvidence^[n] s).display = "none" ∨
        (toggleEvidence^[n] s).display = "") ∧
      (toggleEvidence^[n] s).label = "Show Evidence") := by
  constructor
  · rintro ⟨k, hk⟩
    subst hk
    rw [Nat.add_comm, Function.iterate_add_apply, Function.iterate_one]
    exact toggle_collapsed_step _ (toggle_iterate_even k s hd hl).1
  · rintro ⟨k, hk⟩
    subst hk
    have h2 : k + k = 2 * k := by ring
    rw [h2]
    exact toggle_iterate_even k s hd hl

/-- C8 witness: from the initial unset-display block, three toggles show
it with label Hide Evidence and four toggles hide it again with label
Show Evidence. -/
theorem toggleEvidence_parity_witness :
    (({ display := "", label := "Show Evidence" } : EvState).display = "none" ∨
      ({ display := "", label := "Show Evidence" } : EvState).display = "") ∧
    toggleEvidence^[3] { display := "", label := "Show Evidence" } =
      { display := "block", label := "Hide Evidence" } ∧
    (toggleEvidence^[4] { display := "", label := "Show Evidence" }).label =
      "Show Evidence" := by
  have h3 := (toggleEvidence_parity 3 { display := "", label := "Show Evidence" }
    (Or.inr rfl) rfl).1 ⟨1, by norm_num⟩
  have h4 := (toggleEvidence_parity 4 { display := "", label := "Show Evidence" }
    (Or.inr rfl) rfl).2 ⟨2, by norm_num⟩
  exact ⟨Or.inr rfl, h3, h4.2⟩

/-- C1 counterexample: rendering the same one-finding report twice in a
row leaves two table rows, not the one row of the second payload - the
findings table body is never cleared, so rows accumulate across calls. -/
theorem renderReport_second_call_accumulates_rows :
    sampleReport1.findings.length = 1 ∧
    ((renderReport sampleReport1
      ((renderReport sampleReport1 dom0).domAfter)).domAfter).tbodyRows.length = 2 := by
  constructor
  · rfl
  · rw [renderReport_ok, renderReport_ok]
    decide

/-- C1 amended: across two successive `renderReport` calls the findings
table accumulates - after the second call its rows are the prior rows
followed by the first payload's rows followed by the second payload's
rows.  The recommendations list is cleared and repopulated only when the
second payload has at least one FAIL finding; when it has none, the
panel is hidden but the previously rendered list items remain in place. -/
theorem renderReport_rerender_accumulation (dom : Dom) (r1 r2 : ScanReport) :
    ((renderReport r2 ((renderReport r1 dom).domAfter)).domAfter).tbodyRows =
      dom.tbodyRows ++ r1.findings.map buildRow ++ r2.findings.map buildRow ∧
    ((r2.findings.filter (fun f => f.status == "FAIL")).length > 0 →
      ((renderReport r2 ((renderReport r1 dom).domAfter)).domAfter).recListItems =
        (r2.findings.filter (fun f => f.status == "FAIL")).map recItemFor ∧
      ((renderReport r2 ((renderReport r1 dom).domAfter)).domAfter).recDisplay =
        "block") ∧
    ((r2.findings.filter (fun f => f.status == "FAIL")).length = 0 →
      ((renderReport r2 ((renderReport r1 dom).domAfter)).domAfter).recListItems =
        ((renderReport r1 dom).domAfter).recListItems ∧
      ((renderReport r2 ((renderReport r1 dom).domAfter)).domAfter).recDisplay =
        "none") := by
  rw [renderReport_ok, renderReport_ok]
  refine ⟨?_, fun h => ?_, fun h => ?_⟩
  · simp [renderedDom, RenderResult.domAfter, List.append_assoc]
  · constructor <;> simp [renderedDom, RenderResult.domAfter, h]
  · constructor <;> simp [renderedDom, RenderResult.domAfter, h]

/-- C1 amended witness: rendering the FAIL report twice from the empty
page leaves two accumulated rows and a repopulated, visible list. -/
theorem renderReport_rerender_accumulation_witness :
    ((renderReport sampleReport1
      ((renderReport sampleReport1 dom0).domAfter)).domAfter).tbodyRows =
      dom0.tbodyRows ++ sampleReport1.findings.map buildRow ++
        sampleReport1.findings.map buildRow ∧
    ((renderReport sampleReport1
      ((renderReport sampleReport1 dom0).domAfter)).domAfter).recDisplay =
      "block" := by
  have h := renderReport_rerender_accumulation dom0 sampleReport1 sampleReport1
  exact ⟨h.1, (h.2.1 (by decide)).2⟩
